import Mathlib

/-!
Verification development for the kulu ROSCA ledger.

The definitions below are a shallow embedding of the repository's financial
core, translated from the TypeScript source:

* `generatePaymentSchedule`, `calculateGroupFundAllocation`
  (src/components/home/app-sidebar.tsx, second embedded document — lib/utils);
* the interest-bearing repayment handler `repayLoan`
  (src/unnamed/part_000, POST of /api/loans/repay);
* the no-interest repayment handler `repayLoanNoInterest`
  (src/unnamed/part_001, first embedded document);
* the weekly branch of the ROSCA repayment handler `repayROSCAWeekly`
  (src/app/api/loans/repay-rosca/route.ts);
* the benefit estimator `calculateBenefit`
  (src/app/api/loans/calculate-benefit/route.ts).

JavaScript `number` arithmetic is modelled over `ℚ`; `Math.round` is
`fun x => Int.floor (x + 1/2)`, matching JS round-half-up semantics.
Database rows are records; the persisted effects of one request are modelled
as a state-passing function returning the post state together with either an
error response or the success payload.
-/

namespace Kulu

/-- JS `Math.min` on numbers, as the source's branch on `<=`. -/
def jsMinQ (a b : ℚ) : ℚ := if a ≤ b then a else b

/-- JS `Math.max` on numbers. -/
def jsMaxQ (a b : ℚ) : ℚ := if a ≤ b then b else a

/-- JS `Math.max` on integer-valued numbers. -/
def jsMaxI (a b : ℤ) : ℤ := if a ≤ b then b else a

/-- JS `Math.max` on natural-valued numbers. -/
def jsMaxN (a b : ℕ) : ℕ := if a ≤ b then b else a

/-- JS `Math.round(x * 100) / 100`, the 2-decimal rounding used throughout
the source (`Math.round` rounds half away from zero for positive halves,
i.e. `floor (x + 1/2)`). -/
def round2 (q : ℚ) : ℚ := ((Int.floor (q * 100 + 1/2) : ℤ) : ℚ) / 100

/-- Interest policy selector declared in lib/utils
(`export type InterestMethod = "SIMPLE" | "DECLINING"`). -/
inductive InterestMethod where
  | SIMPLE
  | DECLINING
deriving DecidableEq

/-- One row of the projected amortization table produced by
`generatePaymentSchedule`. -/
structure ScheduleRow where
  week : ℕ
  principalRemaining : ℚ
  principalPayment : ℚ
  interest : ℚ
  totalPayment : ℚ
  newBalance : ℚ
deriving DecidableEq

/-- Loop body of `generatePaymentSchedule` (src/components/home/app-sidebar.tsx,
lib/utils document, lines 221-238): `interest` is the literal `0`, the
principal payment is `min(weeklyPrincipalPayment, remaining)`, the pushed row
rounds `totalPayment` and `newBalance`, and the *unrounded* new balance is
carried into the next iteration (`remaining = newBalance`). -/
def generateScheduleAux (weeklyPrincipalPayment : ℚ) :
    ℕ → ℕ → ℚ → List ScheduleRow
  | 0, _, _ => []
  | n + 1, week, remaining =>
    let interest : ℚ := 0
    let principalPayment : ℚ := jsMinQ weeklyPrincipalPayment remaining
    let totalPayment : ℚ := principalPayment
    let newBalance : ℚ := jsMaxQ 0 (remaining - principalPayment)
    { week := week
      principalRemaining := remaining
      principalPayment := principalPayment
      interest := interest
      totalPayment := round2 totalPayment
      newBalance := round2 newBalance } ::
      generateScheduleAux weeklyPrincipalPayment n (week + 1) newBalance

/-- `generatePaymentSchedule(principal, weeklyPrincipalPayment, interestRate,
weeks, method)` from lib/utils.  The `interestRate` and `method` parameters
are accepted but, as in the source, never influence the computation. -/
def generatePaymentSchedule (principal weeklyPrincipalPayment : ℚ)
    (_interestRate : ℚ) (weeks : ℕ) (_method : InterestMethod) :
    List ScheduleRow :=
  generateScheduleAux weeklyPrincipalPayment weeks 1 principal

/-- Result record of `calculateGroupFundAllocation`. -/
structure Allocation where
  emergencyReserve : ℚ
  insuranceFund : ℚ
  adminFee : ℚ
  distributable : ℚ
deriving DecidableEq

/-- `calculateGroupFundAllocation(interestPool, reservePercentage,
insurancePercentage, adminFeePercentage)` from lib/utils (defaults 10, 5,
0.5 are supplied explicitly at call sites of this embedding). -/
def calculateGroupFundAllocation (interestPool reservePercentage
    insurancePercentage adminFeePercentage : ℚ) : Allocation :=
  let emergencyReserve := round2 (interestPool * reservePercentage / 100)
  let insuranceFund := round2 (interestPool * insurancePercentage / 100)
  let adminFee := round2 (interestPool * adminFeePercentage / 100)
  let distributable := interestPool - emergencyReserve - insuranceFund - adminFee
  { emergencyReserve := emergencyReserve
    insuranceFund := insuranceFund
    adminFee := adminFee
    distributable := round2 distributable }

/-- Loan status strings used by the source (`"ACTIVE" | "COMPLETED"`;
`DEFAULTED` appears in the schema). -/
inductive LoanStatus where
  | ACTIVE
  | COMPLETED
  | DEFAULTED
deriving DecidableEq

/-- The Loan record fields read and written by the repayment handlers.
Timestamps are millisecond epochs (`ℤ`). -/
structure Loan where
  principal : ℚ
  remaining : ℚ
  interestRate : ℚ
  weeks : ℕ
  currentWeek : ℤ
  totalInterest : ℚ
  totalPrincipalPaid : ℚ
  latePaymentPenalty : ℚ
  status : LoanStatus
  disbursedAt : ℤ
  completedAt : Option ℤ
deriving DecidableEq

/-- The GroupFund record of a cycle. -/
structure GroupFund where
  investmentPool : ℚ
  interestPool : ℚ
  emergencyReserve : ℚ
  insuranceFund : ℚ
  adminFee : ℚ
  totalFunds : ℚ
deriving DecidableEq

/-- GroupMember record fields used by the repayment distribution and the
benefit estimator.  `weeklyAmount` is nullable in the schema, hence
`Option ℚ` (JS `gm.weeklyAmount || 100` also treats `0` as absent). -/
structure GroupMember where
  id : ℕ
  joiningWeek : ℤ
  weeklyAmount : Option ℚ
  isActive : Bool
  totalContributed : ℚ
  totalInterestReceived : ℚ
  benefitAmount : ℚ
deriving DecidableEq

/-- One LoanTransaction row (append-only log). -/
structure LoanTxn where
  date : ℤ
  amount : ℚ
  interest : ℚ
  penalty : ℚ
  remaining : ℚ
  week : ℤ
deriving DecidableEq

/-- One InterestDistribution row. -/
structure Distribution where
  groupMemberId : ℕ
  amount : ℚ
deriving DecidableEq

/-- The loan's cycle as fetched by the interest-bearing repayment handler:
an optional GroupFund and, from `cycle.group.members` (queried with
`where: \x7b isActive: true \x7d`), the list of active group members. -/
structure Cycle where
  groupFund : Option GroupFund
  groupMembers : Option (List GroupMember)
deriving DecidableEq

/-- Error payload of a rejected request: HTTP status plus message. -/
structure ErrResp where
  code : ℕ
  message : String
deriving DecidableEq

/-- `\x7b error: "Loan already completed" \x7d, \x7b status: 400 \x7d` —
the conflict rejection issued when repayment hits a COMPLETED loan. -/
def loanAlreadyCompleted : ErrResp :=
  { code := 400, message := "Loan already completed" }

/-- Payment breakdown returned by the interest-bearing handler. -/
structure PaymentBreakdown where
  principal : ℚ
  interest : ℚ
  total : ℚ
  newBalance : ℚ
deriving DecidableEq

/-- Database state touched by the interest-bearing repayment handler. -/
structure RepayState where
  loan : Loan
  cycle : Option Cycle
  transactions : List LoanTxn
  distributions : List Distribution
deriving DecidableEq

/-- Request body of POST /api/loans/repay (interest-bearing variant):
`paymentDate` (defaulted to now upstream), `isLate` (default false),
`overdueWeeks` (int ≥ 0, default 0). -/
structure RepayReq where
  paymentDate : ℤ
  isLate : Bool
  overdueWeeks : ℕ
deriving DecidableEq

/-- `7 * 24 * 60 * 60 * 1000` milliseconds. -/
def msPerWeek : ℤ := 7 * 24 * 60 * 60 * 1000

/-- `Math.floor((paymentDate - disbursedDate) / (7*24*60*60*1000))`. -/
def weeksSinceDisbursal (loan : Loan) (paymentDate : ℤ) : ℤ :=
  Int.fdiv (paymentDate - loan.disbursedAt) msPerWeek

/-- `expectedWeek = weeksSinceDisbursal + 1`. -/
def expectedWeek (loan : Loan) (paymentDate : ℤ) : ℤ :=
  weeksSinceDisbursal loan paymentDate + 1

/-- `missedWeeks = Math.max(0, expectedWeek - loan.currentWeek - 1)`. -/
def missedWeeksOf (loan : Loan) (paymentDate : ℤ) : ℤ :=
  jsMaxI 0 (expectedWeek loan paymentDate - loan.currentWeek - 1)

/-- The missed-week simulation loop (part_000 lines 198-209): iterate
`missedWeeks` times over a temporary balance `tempRemaining` that starts at
`loan.remaining` and — as the source comments note — is never reduced,
accumulating `tempRemaining * rate / 100` interest and
`tempRemaining * 0.5 / 100` penalty per missed week.
Returns `(accumulatedInterest, accumulatedPenalty)`. -/
def missedSim (tempRemaining rate : ℚ) : ℕ → ℚ × ℚ
  | 0 => (0, 0)
  | k + 1 =>
    let prev := missedSim tempRemaining rate k
    (prev.1 + tempRemaining * rate / 100, prev.2 + tempRemaining * (1/2) / 100)

/-- Interest distribution block of the interest-bearing handler
(part_000 lines 316-365): when the loan just completed, sum the active
members' `totalContributed`; if both that sum and the loan's `totalInterest`
are positive, create one InterestDistribution per member with
`amount = totalInterest * (totalContributed / totalContributions)` and
increment each member's `totalInterestReceived` by the same amount;
otherwise create nothing and leave members untouched. -/
def distributeInterest (totalInterest : ℚ) (members : List GroupMember) :
    List Distribution × List GroupMember :=
  let totalContributions := (members.map (fun gm => gm.totalContributed)).sum
  if 0 < totalContributions ∧ 0 < totalInterest then
    (members.map (fun gm =>
        { groupMemberId := gm.id
          amount := totalInterest * (gm.totalContributed / totalContributions) }),
     members.map (fun gm =>
        { gm with totalInterestReceived := gm.totalInterestReceived +
            totalInterest * (gm.totalContributed / totalContributions) }))
  else ([], members)

/-- GroupFund update of the interest-bearing handler (part_000 lines
293-313): pour `payment.interest + latePenalty` into the interest pool,
re-run the allocator on the cumulative pool, and recompute `totalFunds` as
`investmentPool + newInterestPool - emergencyReserve - insuranceFund -
adminFee`. -/
def repayFundUpdate (gf : GroupFund) (paymentInterest latePenalty : ℚ) :
    GroupFund :=
  let newInterestPool := gf.interestPool + paymentInterest + latePenalty
  let allocations := calculateGroupFundAllocation newInterestPool 10 5 (1/2)
  { gf with
    interestPool := newInterestPool
    emergencyReserve := allocations.emergencyReserve
    insuranceFund := allocations.insuranceFund
    adminFee := allocations.adminFee
    totalFunds := gf.investmentPool + newInterestPool -
      allocations.emergencyReserve - allocations.insuranceFund -
      allocations.adminFee }

/-- `weeklyPrincipal = loan.principal / loan.weeks`. -/
def weeklyPrincipalOf (loan : Loan) : ℚ := loan.principal / (loan.weeks : ℚ)

/-- `weeklyInterest = loan.remaining * loan.interestRate / 100`. -/
def weeklyInterestOf (loan : Loan) : ℚ := loan.remaining * loan.interestRate / 100

/-- `(accumulatedInterest, accumulatedPenalty)` produced by the missed-week
simulation for this loan and payment date. -/
def accumulatedOf (loan : Loan) (paymentDate : ℤ) : ℚ × ℚ :=
  missedSim loan.remaining loan.interestRate (missedWeeksOf loan paymentDate).toNat

/-- `payment.interest = weeklyInterest + accumulatedInterest`. -/
def paymentInterestOf (loan : Loan) (paymentDate : ℤ) : ℚ :=
  weeklyInterestOf loan + (accumulatedOf loan paymentDate).1

/-- `latePenalty`: the simulated `accumulatedPenalty`, unless the caller sent
`isLate` together with a positive `overdueWeeks` different from the computed
`missedWeeks`, in which case the manual override
`loan.remaining * 0.5 * overdueWeeks / 100` replaces it
(part_000 lines 229-237). -/
def latePenaltyOf (loan : Loan) (req : RepayReq) : ℚ :=
  if req.isLate ∧ 0 < req.overdueWeeks ∧
      (req.overdueWeeks : ℤ) ≠ missedWeeksOf loan req.paymentDate then
    loan.remaining * (1/2) * (req.overdueWeeks : ℚ) / 100
  else (accumulatedOf loan req.paymentDate).2

/-- `newRemaining = Math.max(0, loan.remaining - weeklyPrincipal)`. -/
def newRemainingOf (loan : Loan) : ℚ :=
  jsMaxQ 0 (loan.remaining - weeklyPrincipalOf loan)

/-- The `prisma.loan.update` payload of the interest-bearing handler
(part_000 lines 243-254). -/
def repayUpdatedLoan (loan : Loan) (req : RepayReq) : Loan :=
  let newRemaining := newRemainingOf loan
  { loan with
    remaining := newRemaining
    currentWeek := loan.currentWeek + 1 + missedWeeksOf loan req.paymentDate
    totalInterest := loan.totalInterest + paymentInterestOf loan req.paymentDate
    totalPrincipalPaid := loan.totalPrincipalPaid + weeklyPrincipalOf loan
    status := if newRemaining ≤ 0 then LoanStatus.COMPLETED else LoanStatus.ACTIVE
    completedAt := if newRemaining ≤ 0 then some req.paymentDate else none
    latePaymentPenalty := loan.latePaymentPenalty + latePenaltyOf loan req }

/-- The `prisma.loanTransaction.create` payload of the interest-bearing
handler (part_000 lines 257-267). -/
def repayTxnOf (loan : Loan) (req : RepayReq) : LoanTxn :=
  { date := req.paymentDate
    amount := weeklyPrincipalOf loan
    interest := paymentInterestOf loan req.paymentDate
    penalty := latePenaltyOf loan req
    remaining := newRemainingOf loan
    week := loan.currentWeek + 1 + missedWeeksOf loan req.paymentDate }

/-- POST /api/loans/repay, interest-bearing variant (src/unnamed/part_000,
second embedded document, lines 96-388), starting after authentication and
the loan fetch.  Returns the post state together with the HTTP outcome. -/
def repayLoan (st : RepayState) (req : RepayReq) :
    RepayState × Except ErrResp PaymentBreakdown :=
  let loan := st.loan
  if loan.status = LoanStatus.COMPLETED then
    (st, Except.error loanAlreadyCompleted)
  else
    let updatedLoan := repayUpdatedLoan loan req
    let txn := repayTxnOf loan req
    let txns' := st.transactions ++ [txn]
    let paymentInterest := paymentInterestOf loan req.paymentDate
    let latePenalty := latePenaltyOf loan req
    let breakdown : PaymentBreakdown :=
      { principal := weeklyPrincipalOf loan
        interest := paymentInterest
        total := weeklyPrincipalOf loan + paymentInterest
        newBalance := newRemainingOf loan }
    match st.cycle with
    | none =>
      ({ st with loan := updatedLoan, transactions := txns' }, Except.ok breakdown)
    | some cycle =>
      match cycle.groupFund with
      | none =>
        ({ st with loan := updatedLoan, transactions := txns' }, Except.ok breakdown)
      | some gf =>
        let gf' := repayFundUpdate gf paymentInterest latePenalty
        match cycle.groupMembers with
        | none =>
          ({ st with
              loan := updatedLoan
              cycle := some { cycle with groupFund := some gf' }
              transactions := txns' },
           Except.ok breakdown)
        | some members =>
          if updatedLoan.status = LoanStatus.COMPLETED then
            let dist := distributeInterest updatedLoan.totalInterest members
            ({ loan := updatedLoan
               cycle := some { groupFund := some gf', groupMembers := some dist.2 }
               transactions := txns'
               distributions := st.distributions ++ dist.1 },
             Except.ok breakdown)
          else
            ({ st with
                loan := updatedLoan
                cycle := some { cycle with groupFund := some gf' }
                transactions := txns' },
             Except.ok breakdown)

/-- Database state touched by the no-interest repayment handler that this
development models: the loan, its optional cycle GroupFund, and the
transaction log.  (The savings-redistribution writes of that route touch
Savings records outside this state and are not needed by any claim.) -/
structure RepayStateNI where
  loan : Loan
  groupFund : Option GroupFund
  transactions : List LoanTxn
deriving DecidableEq

/-- Request body of the no-interest repayment route: only the payment date
matters for the modelled state (`paymentMethod` is copied verbatim into the
transaction row and nothing else). -/
structure RepayReqNI where
  paymentDate : ℤ
deriving DecidableEq

/-- The `prisma.loan.update` payload of the no-interest handler
(part_001 lines 117-126). -/
def repayNIUpdatedLoan (loan : Loan) (paymentDate : ℤ) : Loan :=
  let newRemaining := newRemainingOf loan
  { loan with
    remaining := newRemaining
    currentWeek := loan.currentWeek + 1
    totalPrincipalPaid := loan.totalPrincipalPaid + weeklyPrincipalOf loan
    status := if newRemaining ≤ 0 then LoanStatus.COMPLETED else LoanStatus.ACTIVE
    completedAt := if newRemaining ≤ 0 then some paymentDate else none }

/-- The `prisma.loanTransaction.create` payload of the no-interest handler
(part_001 lines 129-138); its `interest` and `penalty` are absent/zero. -/
def repayNITxnOf (loan : Loan) (paymentDate : ℤ) : LoanTxn :=
  { date := paymentDate
    amount := weeklyPrincipalOf loan
    interest := 0
    penalty := 0
    remaining := newRemainingOf loan
    week := loan.currentWeek + 1 }

/-- POST repayment, no-interest variant (src/unnamed/part_001, first
embedded document, lines 14-275), starting after authentication and the
loan fetch.  `weeklyInterest`, penalties and `latePenalty` are the literal
`0`; the week counter advances by exactly 1; on completion the GroupFund's
investment pool and total funds are zeroed, otherwise both are incremented
by the principal collected. -/
def repayLoanNoInterest (st : RepayStateNI) (req : RepayReqNI) :
    RepayStateNI × Except ErrResp PaymentBreakdown :=
  let loan := st.loan
  if loan.status = LoanStatus.COMPLETED then
    (st, Except.error loanAlreadyCompleted)
  else
    let updatedLoan := repayNIUpdatedLoan loan req.paymentDate
    let fund' : Option GroupFund :=
      match st.groupFund with
      | none => none
      | some gf =>
        if updatedLoan.status = LoanStatus.COMPLETED then
          some { gf with investmentPool := 0, totalFunds := 0 }
        else
          some { gf with
                  investmentPool := gf.investmentPool + weeklyPrincipalOf loan
                  totalFunds := gf.totalFunds + weeklyPrincipalOf loan }
    ({ loan := updatedLoan
       groupFund := fund'
       transactions := st.transactions ++ [repayNITxnOf loan req.paymentDate] },
     Except.ok { principal := weeklyPrincipalOf loan, interest := 0,
                 total := weeklyPrincipalOf loan, newBalance := newRemainingOf loan })

/-- Database state touched by the ROSCA repayment route in its weekly
(non-full) branch, plus the `group` presence checked up front. -/
structure RepayStateROSCA where
  loan : Loan
  groupExists : Bool
  groupFund : Option GroupFund
  transactions : List LoanTxn
deriving DecidableEq

/-- POST /api/loans/repay-rosca with `isFullRepayment = false`
(src/app/api/loans/repay-rosca/route.ts lines 88-288): after the COMPLETED
and group checks, pay `principal / weeks` plus 2%-style interest on the
remaining balance, advance one week, and increment the GroupFund's
investment pool, interest pool and total funds by the respective amounts
(the new remaining balance is *not* clamped at zero in this route). -/
def repayROSCAWeekly (st : RepayStateROSCA) (paymentDate : ℤ) :
    RepayStateROSCA × Except ErrResp PaymentBreakdown :=
  let loan := st.loan
  if loan.status = LoanStatus.COMPLETED then
    (st, Except.error loanAlreadyCompleted)
  else if st.groupExists = false then
    (st, Except.error { code := 404, message := "Group not found for this loan" })
  else
    let weeklyPrincipal : ℚ := weeklyPrincipalOf loan
    let weeklyInterest : ℚ := weeklyInterestOf loan
    let weeklyPayment : ℚ := weeklyPrincipal + weeklyInterest
    let newRemaining : ℚ := loan.remaining - weeklyPrincipal
    let newWeek : ℤ := loan.currentWeek + 1
    let updatedLoan : Loan :=
      { loan with
        remaining := newRemaining
        currentWeek := newWeek
        totalInterest := loan.totalInterest + weeklyInterest
        totalPrincipalPaid := loan.totalPrincipalPaid + weeklyPrincipal
        status := if newRemaining ≤ 0 then LoanStatus.COMPLETED else LoanStatus.ACTIVE
        completedAt := if newRemaining ≤ 0 then some paymentDate else none }
    let txn : LoanTxn :=
      { date := paymentDate
        amount := weeklyPrincipal
        interest := weeklyInterest
        penalty := 0
        remaining := newRemaining
        week := newWeek }
    let fund' : Option GroupFund :=
      match st.groupFund with
      | none => none
      | some gf =>
        some { gf with
                investmentPool := gf.investmentPool + weeklyPrincipal
                interestPool := gf.interestPool + weeklyInterest
                totalFunds := gf.totalFunds + weeklyPayment }
    ({ st with
        loan := updatedLoan
        groupFund := fund'
        transactions := st.transactions ++ [txn] },
     Except.ok { principal := weeklyPrincipal, interest := weeklyInterest,
                 total := weeklyPayment, newBalance := newRemaining })

/-- JS `gm.weeklyAmount || 100`: `null`/absent and `0` both fall back
to 100. -/
def weeklyOr100 (o : Option ℚ) : ℚ :=
  match o with
  | none => 100
  | some a => if a = 0 then 100 else a

/-- `Math.max(0, week - gm.joiningWeek + 1)`, the number of weeks the
member has contributed up to `week`. -/
def weeksContributed (week : ℤ) (gm : GroupMember) : ℤ :=
  jsMaxI 0 (week - gm.joiningWeek + 1)

/-- POST /api/loans/calculate-benefit core
(src/app/api/loans/calculate-benefit/route.ts lines 55-107), starting after
the target GroupMember fetch: `group` is the group's member list (the route
queries it with `isActive: true`; the filter is applied here), `target` the
fetched member.  Returns the updated GroupMember record (the route persists
`benefitAmount` and `totalContributed` onto it) and the benefit amount. -/
def calculateBenefit (group : List GroupMember) (target : GroupMember)
    (week : ℤ) : GroupMember × ℚ :=
  let allGroupMembers := group.filter (fun gm => gm.isActive)
  let totalContributions :=
    (allGroupMembers.map (fun gm =>
      ((weeksContributed week gm : ℤ) : ℚ) * weeklyOr100 gm.weeklyAmount)).sum
  let memberTotalContributed :=
    ((weeksContributed week target : ℤ) : ℚ) * weeklyOr100 target.weeklyAmount
  let joined := allGroupMembers.filter (fun gm => gm.joiningWeek ≤ week)
  let activeMembersThisWeek := joined.length
  let poolAmount := (joined.map (fun gm => weeklyOr100 gm.weeklyAmount)).sum
  let benefitAmount :=
    if 0 < totalContributions then
      memberTotalContributed / totalContributions * poolAmount
    else
      poolAmount / ((jsMaxN activeMembersThisWeek 1 : ℕ) : ℚ)
  ({ target with
      benefitAmount := benefitAmount
      totalContributed := memberTotalContributed },
   benefitAmount)

/-! ### Concrete sample records used by witnesses and counterexamples -/

/-- An active loan: ₹1000 over 10 weeks at 2%/week, ₹500 still outstanding,
week counter 0, disbursed at epoch 0. -/
def sampleLoan : Loan :=
  { principal := 1000, remaining := 500, interestRate := 2, weeks := 10
    currentWeek := 0, totalInterest := 0, totalPrincipalPaid := 0
    latePaymentPenalty := 0, status := LoanStatus.ACTIVE, disbursedAt := 0
    completedAt := none }

/-- A fully repaid loan. -/
def completedLoan : Loan :=
  { principal := 1000, remaining := 0, interestRate := 2, weeks := 10
    currentWeek := 10, totalInterest := 55, totalPrincipalPaid := 1000
    latePaymentPenalty := 0, status := LoanStatus.COMPLETED, disbursedAt := 0
    completedAt := some 0 }

def c1State : RepayState :=
  { loan := sampleLoan, cycle := none, transactions := [], distributions := [] }

/-- A payment three weeks after disbursal: `missedWeeks = 3`. -/
def c1Req : RepayReq :=
  { paymentDate := 3 * msPerWeek, isLate := false, overdueWeeks := 0 }

def c3State : RepayState :=
  { loan := completedLoan, cycle := none, transactions := [], distributions := [] }

def c3StateNI : RepayStateNI :=
  { loan := completedLoan, groupFund := none, transactions := [] }

def c3Req : RepayReq := { paymentDate := 0, isLate := false, overdueWeeks := 0 }

def c3ReqNI : RepayReqNI := { paymentDate := 0 }

def c5State : RepayState :=
  { loan := sampleLoan, cycle := none, transactions := [], distributions := [] }

/-- On-time payment (`missedWeeks = 0`) with `overdueWeeks = 3` supplied but
`isLate` left false. -/
def c5Req : RepayReq := { paymentDate := 0, isLate := false, overdueWeeks := 3 }

/-- On-time payment with `isLate = true` and `overdueWeeks = 2`
(different from the computed `missedWeeks = 0`). -/
def c5wReq : RepayReq := { paymentDate := 0, isLate := true, overdueWeeks := 2 }

/-- A GroupFund satisfying the fund-allocation invariant
(`416 = 400 + 20 - 2 - 1 - 1`). -/
def c4Fund : GroupFund :=
  { investmentPool := 400, interestPool := 20, emergencyReserve := 2
    insuranceFund := 1, adminFee := 1, totalFunds := 416 }

def c4Cycle : Cycle := { groupFund := some c4Fund, groupMembers := none }

def c4State : RepayState :=
  { loan := sampleLoan, cycle := some c4Cycle, transactions := [], distributions := [] }

def c4Req : RepayReq := { paymentDate := 0, isLate := false, overdueWeeks := 0 }

def c4StateR : RepayStateROSCA :=
  { loan := sampleLoan, groupExists := true, groupFund := some c4Fund
    transactions := [] }

/-- An all-zero GroupFund (as created for a fresh cycle). -/
def zeroFund : GroupFund :=
  { investmentPool := 0, interestPool := 0, emergencyReserve := 0
    insuranceFund := 0, adminFee := 0, totalFunds := 0 }

/-- A loan one ₹10 payment away from completion with `9/10` interest already
accrued; the completing payment adds `10 × 1% = 1/10`, making
`totalInterest = 1`. -/
def c6Loan : Loan :=
  { principal := 100, remaining := 10, interestRate := 1, weeks := 10
    currentWeek := 9, totalInterest := 9/10, totalPrincipalPaid := 90
    latePaymentPenalty := 0, status := LoanStatus.ACTIVE, disbursedAt := 0
    completedAt := none }

def c6m1 : GroupMember :=
  { id := 1, joiningWeek := 1, weeklyAmount := some 100, isActive := true
    totalContributed := 3, totalInterestReceived := 0, benefitAmount := 0 }

def c6m2 : GroupMember :=
  { id := 2, joiningWeek := 1, weeklyAmount := some 100, isActive := true
    totalContributed := 1, totalInterestReceived := 0, benefitAmount := 0 }

def c6Members : List GroupMember := [c6m1, c6m2]

def c6Cycle : Cycle :=
  { groupFund := some zeroFund, groupMembers := some c6Members }

def c6State : RepayState :=
  { loan := c6Loan, cycle := some c6Cycle, transactions := [], distributions := [] }

def c6Req : RepayReq := { paymentDate := 0, isLate := false, overdueWeeks := 0 }

/-- A loan whose remaining balance (₹4) is smaller than the fixed weekly
principal (`100 / 10 = ₹10`), with ₹96 already recorded. -/
def c9Loan : Loan :=
  { principal := 100, remaining := 4, interestRate := 0, weeks := 10
    currentWeek := 24, totalInterest := 0, totalPrincipalPaid := 96
    latePaymentPenalty := 0, status := LoanStatus.ACTIVE, disbursedAt := 0
    completedAt := none }

def c9Txn : LoanTxn :=
  { date := 0, amount := 96, interest := 0, penalty := 0, remaining := 4
    week := 24 }

def c9State : RepayStateNI :=
  { loan := c9Loan, groupFund := none, transactions := [c9Txn] }

def c9Req : RepayReqNI := { paymentDate := 0 }

def c8target : GroupMember :=
  { id := 1, joiningWeek := 1, weeklyAmount := some 100, isActive := true
    totalContributed := 7, totalInterestReceived := 0, benefitAmount := 0 }

def c8other : GroupMember :=
  { id := 2, joiningWeek := 3, weeklyAmount := some 50, isActive := true
    totalContributed := 0, totalInterestReceived := 0, benefitAmount := 0 }

def c8inactive : GroupMember :=
  { id := 3, joiningWeek := 1, weeklyAmount := some 100, isActive := false
    totalContributed := 0, totalInterestReceived := 0, benefitAmount := 0 }

def c8group : List GroupMember := [c8target, c8other, c8inactive]

theorem jsMinQ_eq_min (a b : ℚ) : jsMinQ a b = min a b := (min_def a b).symm

theorem jsMaxQ_eq_max (a b : ℚ) : jsMaxQ a b = max a b := (max_def a b).symm

theorem jsMaxI_eq_max (a b : ℤ) : jsMaxI a b = max a b := (max_def a b).symm

theorem jsMaxN_eq_max (a b : ℕ) : jsMaxN a b = max a b := (max_def a b).symm

/-! ### Helper lemmas: rounding -/

theorem round2_cent (m : ℤ) : round2 ((m : ℚ) / 100) = (m : ℚ) / 100 := by
  unfold round2
  have h : ((m : ℚ) / 100) * 100 = (m : ℚ) := by field_simp
  rw [h]
  have h2 : ⌊(m : ℚ) + 1/2⌋ = m := by
    rw [Int.floor_eq_iff] <;> push_cast <;> constructor <;> norm_num
  rw [h2]

theorem round2_int (m : ℤ) : round2 (m : ℚ) = (m : ℚ) := by
  have h : ((m : ℚ)) = ((m * 100 : ℤ) : ℚ) / 100 := by push_cast; ring
  rw [h, round2_cent]

theorem round2_zero : round2 0 = 0 := by
  simpa using round2_int 0

/-! ### Helper lemmas: the payment schedule -/

theorem genAux_interest_zero (w : ℚ) :
    ∀ (n week : ℕ) (rem : ℚ) (row : ScheduleRow),
      row ∈ generateScheduleAux w n week rem → row.interest = 0 := by
  intro n
  induction n with
  | zero => intro week rem row h; simp [generateScheduleAux] at h
  | succ k ih =>
    intro week rem row h
    rw [generateScheduleAux] at h
    rcases List.mem_cons.mp h with h | h
    · subst h; rfl
    · exact ih _ _ _ h

theorem newBalance_step (w rem : ℚ) (hw : 0 ≤ w) (h0 : 0 ≤ rem) :
    jsMaxQ 0 (rem - jsMinQ w rem) = max 0 (rem - w) := by
  rw [jsMaxQ_eq_max, jsMinQ_eq_min]
  rcases le_total w rem with h | h
  · rw [min_eq_left h]
  · rw [min_eq_right h, sub_self, max_self,
      (max_eq_left (by linarith) : max 0 (rem - w) = 0)]

theorem payment_step (w rem : ℚ) (hw : 0 ≤ w) (h0 : 0 ≤ rem) :
    jsMinQ w rem = rem - max 0 (rem - w) := by
  rw [jsMinQ_eq_min]
  rcases le_total w rem with h | h
  · rw [min_eq_left h, max_eq_right (by linarith)]; ring
  · rw [min_eq_right h, max_eq_left (by linarith)]; ring

theorem maxZero_iter (rem w c : ℚ) (hw : 0 ≤ w) (hc : 0 ≤ c) :
    max 0 (max 0 (rem - w) - c * w) = max 0 (rem - (c + 1) * w) := by
  have hcw : 0 ≤ c * w := mul_nonneg hc hw
  rcases le_total (rem - w) 0 with h | h
  · rw [max_eq_left h, zero_sub, max_eq_left (by linarith),
      max_eq_left (by nlinarith)]
  · rw [max_eq_right h]
    congr 1
    ring

theorem genAux_sum (w : ℚ) (hw : 0 ≤ w) :
    ∀ (n week : ℕ) (rem : ℚ), 0 ≤ rem →
      ((generateScheduleAux w n week rem).map
        (fun r => r.principalPayment)).sum = rem - max 0 (rem - n * w) := by
  intro n
  induction n with
  | zero =>
    intro week rem h0
    simp [generateScheduleAux, max_eq_right h0]
  | succ k ih =>
    intro week rem h0
    rw [generateScheduleAux]
    simp only [List.map_cons, List.sum_cons]
    rw [newBalance_step w rem hw h0, payment_step w rem hw h0,
      ih (week + 1) _ (le_max_left 0 _)]
    have hmz := maxZero_iter rem w (k : ℚ) hw (by positivity)
    push_cast
    rw [← hmz]
    ring

theorem genAux_getLast_newBalance (w : ℚ) (hw : 0 ≤ w) :
    ∀ (n week : ℕ) (rem : ℚ), 0 ≤ rem →
      ((generateScheduleAux w (n + 1) week rem).getLast?).map
          (fun r => r.newBalance)
        = some (round2 (max 0 (rem - (n + 1) * w))) := by
  intro n
  induction n with
  | zero =>
    intro week rem h0
    rw [generateScheduleAux, generateScheduleAux]
    simp [newBalance_step w rem hw h0]
  | succ k ih =>
    intro week rem h0
    have hrem' : (0 : ℚ) ≤ jsMaxQ 0 (rem - jsMinQ w rem) := by
      rw [jsMaxQ_eq_max]; exact le_max_left 0 _
    have hih := ih (week + 1) _ hrem'
    rw [generateScheduleAux]
    conv_lhs => rw [generateScheduleAux]
    rw [List.getLast?_cons_cons]
    rw [← generateScheduleAux]
    rw [hih, newBalance_step w rem hw h0,
      maxZero_iter rem w ((k : ℚ) + 1) hw (by positivity)]
    push_cast
    ring_nf

/-! ### Helper lemmas: the missed-week simulation -/

theorem missedSim_closed (R r : ℚ) (k : ℕ) :
    missedSim R r k = ((k : ℚ) * (R * r / 100), (k : ℚ) * (R * (1/2) / 100)) := by
  induction k with
  | zero => simp [missedSim]
  | succ n ih =>
    rw [missedSim, ih]
    push_cast
    rw [Prod.mk.injEq]
    constructor <;> ring

/-! ### Helper lemmas: the interest-bearing repayment handler -/

theorem repayLoan_rejected (st : RepayState) (req : RepayReq)
    (h : st.loan.status = LoanStatus.COMPLETED) :
    repayLoan st req = (st, Except.error loanAlreadyCompleted) := by
  rw [repayLoan, if_pos h]

theorem repayLoan_loan (st : RepayState) (req : RepayReq)
    (h : ¬ st.loan.status = LoanStatus.COMPLETED) :
    (repayLoan st req).1.loan = repayUpdatedLoan st.loan req := by
  rw [repayLoan, if_neg h]
  cases hc : st.cycle with
  | none => rfl
  | some cycle =>
    obtain ⟨gfOpt, msOpt⟩ := cycle
    cases gfOpt with
    | none => rfl
    | some gf =>
      cases msOpt with
      | none => rfl
      | some ms =>
        dsimp only
        split <;> rfl

theorem repayLoan_txns (st : RepayState) (req : RepayReq)
    (h : ¬ st.loan.status = LoanStatus.COMPLETED) :
    (repayLoan st req).1.transactions
      = st.transactions ++ [repayTxnOf st.loan req] := by
  rw [repayLoan, if_neg h]
  cases hc : st.cycle with
  | none => rfl
  | some cycle =>
    obtain ⟨gfOpt, msOpt⟩ := cycle
    cases gfOpt with
    | none => rfl
    | some gf =>
      cases msOpt with
      | none => rfl
      | some ms =>
        dsimp only
        split <;> rfl

theorem repayLoan_fund (st : RepayState) (req : RepayReq)
    (h : ¬ st.loan.status = LoanStatus.COMPLETED)
    (cycle : Cycle) (gf : GroupFund) (hc : st.cycle = some cycle)
    (hgf : cycle.groupFund = some gf) :
    ((repayLoan st req).1.cycle.bind Cycle.groupFund)
      = some (repayFundUpdate gf (paymentInterestOf st.loan req.paymentDate)
          (latePenaltyOf st.loan req)) := by
  rw [repayLoan, if_neg h, hc]
  obtain ⟨gfOpt, msOpt⟩ := cycle
  cases hgf
  cases msOpt with
  | none => rfl
  | some ms =>
    dsimp only
    split <;> rfl

theorem repayLoan_distribution (st : RepayState) (req : RepayReq)
    (h : ¬ st.loan.status = LoanStatus.COMPLETED)
    (cycle : Cycle) (gf : GroupFund) (ms : List GroupMember)
    (hc : st.cycle = some cycle) (hgf : cycle.groupFund = some gf)
    (hms : cycle.groupMembers = some ms)
    (hcomp : (repayUpdatedLoan st.loan req).status = LoanStatus.COMPLETED) :
    (repayLoan st req).1.cycle.bind Cycle.groupMembers
        = some (distributeInterest (repayUpdatedLoan st.loan req).totalInterest ms).2
    ∧ (repayLoan st req).1.distributions
        = st.distributions ++
          (distributeInterest (repayUpdatedLoan st.loan req).totalInterest ms).1 := by
  rw [repayLoan, if_neg h, hc]
  obtain ⟨gfOpt, msOpt⟩ := cycle
  cases hgf
  cases hms
  dsimp only
  rw [if_pos hcomp]
  exact ⟨rfl, rfl⟩

theorem repayLoan_distribution_skipped (st : RepayState) (req : RepayReq)
    (h : ¬ st.loan.status = LoanStatus.COMPLETED)
    (hcomp : ¬ (repayUpdatedLoan st.loan req).status = LoanStatus.COMPLETED) :
    (repayLoan st req).1.distributions = st.distributions := by
  rw [repayLoan, if_neg h]
  cases hc : st.cycle with
  | none => rfl
  | some cycle =>
    obtain ⟨gfOpt, msOpt⟩ := cycle
    cases gfOpt with
    | none => rfl
    | some gf =>
      cases msOpt with
      | none => rfl
      | some ms =>
        dsimp only
        rw [if_neg hcomp]

/-! ### Helper lemmas: the no-interest repayment handler -/

theorem repayLoanNoInterest_rejected (st : RepayStateNI) (req : RepayReqNI)
    (h : st.loan.status = LoanStatus.COMPLETED) :
    repayLoanNoInterest st req = (st, Except.error loanAlreadyCompleted) := by
  rw [repayLoanNoInterest, if_pos h]

theorem repayROSCAWeekly_rejected (st : RepayStateROSCA) (d : ℤ)
    (h : st.loan.status = LoanStatus.COMPLETED) :
    repayROSCAWeekly st d = (st, Except.error loanAlreadyCompleted) := by
  rw [repayROSCAWeekly, if_pos h]

theorem repayLoanNoInterest_loan (st : RepayStateNI) (req : RepayReqNI)
    (h : ¬ st.loan.status = LoanStatus.COMPLETED) :
    (repayLoanNoInterest st req).1.loan
      = repayNIUpdatedLoan st.loan req.paymentDate := by
  rw [repayLoanNoInterest, if_neg h]

theorem repayLoanNoInterest_txns (st : RepayStateNI) (req : RepayReqNI)
    (h : ¬ st.loan.status = LoanStatus.COMPLETED) :
    (repayLoanNoInterest st req).1.transactions
      = st.transactions ++ [repayNITxnOf st.loan req.paymentDate] := by
  rw [repayLoanNoInterest, if_neg h]

theorem repayROSCAWeekly_fund (st : RepayStateROSCA) (d : ℤ) (gf : GroupFund)
    (h : ¬ st.loan.status = LoanStatus.COMPLETED) (hg : st.groupExists = true)
    (hgf : st.groupFund = some gf) :
    (repayROSCAWeekly st d).1.groupFund
      = some { gf with
          investmentPool := gf.investmentPool + weeklyPrincipalOf st.loan
          interestPool := gf.interestPool + weeklyInterestOf st.loan
          totalFunds := gf.totalFunds
            + (weeklyPrincipalOf st.loan + weeklyInterestOf st.loan) } := by
  rw [repayROSCAWeekly, if_neg h, if_neg (by rw [hg]; simp)]
  dsimp only
  rw [hgf]

/-! ### C2 — interest in the generated schedule -/

/-- C2 (counterexample): for `generatePaymentSchedule(1000, 100, 2, 10,
DECLINING)` the first row has `principalRemaining = 1000` but `interest = 0`,
not the remaining balance times the weekly rate (`1000 × 2 / 100 = 20`, or
`1000 × 2` under the rate-as-fraction reading) as the claim would require for
a positive rate. -/
theorem schedule_declining_counterexample :
    ((generatePaymentSchedule 1000 100 2 10 InterestMethod.DECLINING).head?).map
        (fun r => r.interest) = some 0
    ∧ ((generatePaymentSchedule 1000 100 2 10 InterestMethod.DECLINING).head?).map
        (fun r => r.principalRemaining) = some 1000
    ∧ (0 : ℚ) ≠ 1000 * 2 / 100
    ∧ (0 : ℚ) ≠ 1000 * 2 := by
  refine ⟨?_, ?_, by norm_num, by norm_num⟩ <;>
    · rw [generatePaymentSchedule, show (10 : ℕ) = 9 + 1 from rfl,
        generateScheduleAux]
      simp

/-- C2 (amended): every row of every generated schedule — the DECLINING
method and a positive rate included — has `interest = 0` (the implementation
ignores the rate and the method), and consequently row interest is
non-strictly non-increasing along the schedule rather than strictly
decreasing. -/
theorem schedule_interest_zero (principal w rate : ℚ) (weeks : ℕ)
    (m : InterestMethod) :
    (∀ row ∈ generatePaymentSchedule principal w rate weeks m,
      row.interest = 0)
    ∧ List.Chain' (fun a b => b.interest ≤ a.interest)
        (generatePaymentSchedule principal w rate weeks m) := by
  constructor
  · intro row h
    exact genAux_interest_zero w weeks 1 principal row h
  · apply List.Pairwise.chain'
    apply List.pairwise_of_forall_mem_list
    intro a ha b hb
    rw [genAux_interest_zero w weeks 1 principal a ha,
      genAux_interest_zero w weeks 1 principal b hb]

/-- C2 (witness): the amended statement instantiated at
`(1000, 100, 2, 10, DECLINING)`. -/
theorem schedule_interest_zero_witness :
    List.Chain' (fun a b => b.interest ≤ a.interest)
      (generatePaymentSchedule 1000 100 2 10 InterestMethod.DECLINING) :=
  (schedule_interest_zero 1000 100 2 10 InterestMethod.DECLINING).2

/-! ### C7 — schedule principal sum and final balance -/

/-- C7 (counterexample): for `generatePaymentSchedule(2000, 100, 0, 10,
DECLINING)` (ten weeks at the default ₹100 weekly principal) the rows'
`principalPayment` values sum to 1000, which misses the principal 2000 by far
more than one rounding unit, and the final row's `newBalance` is 1000, not
0. -/
theorem schedule_sum_counterexample :
    ((generatePaymentSchedule 2000 100 0 10 InterestMethod.DECLINING).map
        (fun r => r.principalPayment)).sum = 1000
    ∧ ((generatePaymentSchedule 2000 100 0 10 InterestMethod.DECLINING).getLast?).map
        (fun r => r.newBalance) = some 1000
    ∧ (1 / 100 : ℚ) < |(1000 : ℚ) - 2000|
    ∧ (1000 : ℚ) ≠ 0 := by
  refine ⟨?_, ?_, by rw [abs_of_nonpos] <;> norm_num, by norm_num⟩
  · rw [generatePaymentSchedule,
      genAux_sum 100 (by norm_num) 10 1 2000 (by norm_num)]
    rw [show ((10 : ℕ) : ℚ) * 100 = 1000 by norm_num]
    rw [max_eq_right (by norm_num : (0 : ℚ) ≤ 2000 - 1000)]
    norm_num
  · rw [generatePaymentSchedule, show (10 : ℕ) = 9 + 1 from rfl,
      genAux_getLast_newBalance 100 (by norm_num) 9 1 2000 (by norm_num)]
    rw [show (2000 : ℚ) - (((9 : ℕ) : ℚ) + 1) * 100 = 1000 by norm_num]
    rw [max_eq_right (by norm_num : (0 : ℚ) ≤ 1000)]
    rw [show (1000 : ℚ) = ((1000 : ℤ) : ℚ) by norm_num, round2_int]

/-- C7 (amended): whenever the schedule's weekly principal payment covers the
principal (`principal ≤ weeks × weeklyPrincipalPayment`, with nonnegative
inputs and at least one week), the rows' `principalPayment` values sum to the
principal exactly and the final row's `newBalance` is 0.  Per-row rounding
applies to the `totalPayment` and `newBalance` fields at row construction;
the carried balance and the `principalPayment` field are exact. -/
theorem schedule_sum_covered (principal w rate : ℚ) (weeks : ℕ)
    (m : InterestMethod) (hp : 0 ≤ principal) (hw : 0 ≤ w) (h1 : 1 ≤ weeks)
    (hcov : principal ≤ (weeks : ℚ) * w) :
    ((generatePaymentSchedule principal w rate weeks m).map
        (fun r => r.principalPayment)).sum = principal
    ∧ ((generatePaymentSchedule principal w rate weeks m).getLast?).map
        (fun r => r.newBalance) = some 0 := by
  obtain ⟨n, rfl⟩ : ∃ n, weeks = n + 1 := ⟨weeks - 1, by omega⟩
  constructor
  · rw [generatePaymentSchedule,
      genAux_sum w hw (n + 1) 1 principal hp,
      max_eq_left (by linarith : principal - ((n + 1 : ℕ) : ℚ) * w ≤ 0)]
    ring
  · have hcov' : principal - (((n : ℕ) : ℚ) + 1) * w ≤ 0 := by
      push_cast at hcov ⊢
      linarith
    rw [generatePaymentSchedule,
      genAux_getLast_newBalance w hw n 1 principal hp,
      max_eq_left hcov', round2_zero]

/-- C7 (witness): the amended statement instantiated at
`(1000, 100, 1, 10, DECLINING)`. -/
theorem schedule_sum_covered_witness :
    ((generatePaymentSchedule 1000 100 1 10 InterestMethod.DECLINING).map
        (fun r => r.principalPayment)).sum = 1000
    ∧ ((generatePaymentSchedule 1000 100 1 10 InterestMethod.DECLINING).getLast?).map
        (fun r => r.newBalance) = some 0 :=
  schedule_sum_covered 1000 100 1 10 InterestMethod.DECLINING
    (by norm_num) (by norm_num) (by norm_num) (by norm_num)

/-! ### C1 — missed-week accrual -/

/-- C1: for an active loan with remaining balance `R`, weekly rate `r` and
computed `missedWeeks = max(0, expectedWeek - currentWeek - 1) = k > 0`, the
missed-week simulation returns `accumulatedInterest = k * (R * r / 100)` and
`accumulatedPenalty = k * (R * 0.5 / 100)` — every missed week accrues on the
same unreduced balance — and the persisted week counter becomes
`currentWeek + 1 + k`. -/
theorem missed_week_accrual (st : RepayState) (req : RepayReq)
    (hact : st.loan.status = LoanStatus.ACTIVE)
    (hk : 0 < missedWeeksOf st.loan req.paymentDate) :
    accumulatedOf st.loan req.paymentDate
      = (((missedWeeksOf st.loan req.paymentDate : ℤ) : ℚ)
            * (st.loan.remaining * st.loan.interestRate / 100),
         ((missedWeeksOf st.loan req.paymentDate : ℤ) : ℚ)
            * (st.loan.remaining * (1/2) / 100))
    ∧ (repayLoan st req).1.loan.currentWeek
      = st.loan.currentWeek + 1 + missedWeeksOf st.loan req.paymentDate := by
  have hcast : (((missedWeeksOf st.loan req.paymentDate).toNat : ℕ) : ℚ)
      = ((missedWeeksOf st.loan req.paymentDate : ℤ) : ℚ) := by
    exact_mod_cast congrArg (fun z : ℤ => (z : ℚ))
      (Int.toNat_of_nonneg (le_of_lt hk))
  constructor
  · rw [accumulatedOf, missedSim_closed, hcast]
  · rw [repayLoan_loan st req (by rw [hact]; intro hfalse; cases hfalse)]
    rfl

/-- C1 (witness): the accrual equations and week-counter jump at the sample
active loan paid three weeks after disbursal (`missedWeeks = 3`). -/
theorem missed_week_accrual_witness :
    accumulatedOf c1State.loan c1Req.paymentDate
      = (((missedWeeksOf c1State.loan c1Req.paymentDate : ℤ) : ℚ)
            * (c1State.loan.remaining * c1State.loan.interestRate / 100),
         ((missedWeeksOf c1State.loan c1Req.paymentDate : ℤ) : ℚ)
            * (c1State.loan.remaining * (1/2) / 100))
    ∧ (repayLoan c1State c1Req).1.loan.currentWeek
      = c1State.loan.currentWeek + 1 + missedWeeksOf c1State.loan c1Req.paymentDate :=
  missed_week_accrual c1State c1Req rfl (by decide)

/-! ### C3 — repayment of a COMPLETED loan is rejected without mutation -/

/-- C3: in both repayment variants, a repayment against a loan whose status
is COMPLETED is rejected with the "Loan already completed" conflict response
and the returned state is exactly the input state: loan record, transaction
log and group fund untouched. -/
theorem completed_loan_repayment_rejected (st : RepayState) (req : RepayReq)
    (st2 : RepayStateNI) (req2 : RepayReqNI)
    (h : st.loan.status = LoanStatus.COMPLETED)
    (h2 : st2.loan.status = LoanStatus.COMPLETED) :
    repayLoan st req = (st, Except.error loanAlreadyCompleted)
    ∧ repayLoanNoInterest st2 req2 = (st2, Except.error loanAlreadyCompleted) :=
  ⟨repayLoan_rejected st req h, repayLoanNoInterest_rejected st2 req2 h2⟩

/-- C3 (witness): both variants at a concrete COMPLETED loan. -/
theorem completed_loan_repayment_rejected_witness :
    repayLoan c3State c3Req = (c3State, Except.error loanAlreadyCompleted)
    ∧ repayLoanNoInterest c3StateNI c3ReqNI
      = (c3StateNI, Except.error loanAlreadyCompleted) :=
  completed_loan_repayment_rejected c3State c3Req c3StateNI c3ReqNI rfl rfl

/-! ### C5 — the manual overdueWeeks override -/

/-- C5 (counterexample): with `isLate = false`, `overdueWeeks = 3` supplied
and computed `missedWeeks = 0`, the persisted penalty is `0`, not the
`remaining × 0.5 × overdueWeeks / 100 = 500 × 0.5 × 3 / 100 = 7.5` that the
claim requires whenever a positive `overdueWeeks` differs from
`missedWeeks`. -/
theorem overdue_override_counterexample :
    0 < c5Req.overdueWeeks
    ∧ (c5Req.overdueWeeks : ℤ) ≠ missedWeeksOf c5State.loan c5Req.paymentDate
    ∧ (repayLoan c5State c5Req).1.loan.latePaymentPenalty = 0
    ∧ c5State.loan.remaining * (1/2) * (c5Req.overdueWeeks : ℚ) / 100 = 15/2
    ∧ (0 : ℚ) ≠ 15/2 := by
  refine ⟨by decide, by decide, ?_, ?_, by norm_num⟩
  · rw [repayLoan_loan c5State c5Req (by decide)]
    show c5State.loan.latePaymentPenalty + latePenaltyOf c5State.loan c5Req = 0
    rw [latePenaltyOf, if_neg (by decide)]
    rw [accumulatedOf, show (missedWeeksOf c5State.loan c5Req.paymentDate).toNat
        = 0 from by decide, missedSim]
    show (0 : ℚ) + 0 = 0
    norm_num
  · show (500 : ℚ) * (1/2) * ((3 : ℕ) : ℚ) / 100 = 15/2
    norm_num

/-- C5 (amended): the manual override applies only when the caller also sets
`isLate = true`; in that case (`overdueWeeks > 0` and different from the
computed `missedWeeks`) the persisted late penalty increment and the
transaction's penalty equal `remaining × 0.5 × overdueWeeks / 100`, entirely
replacing the simulated accumulated penalty. -/
theorem overdue_override_replaces (st : RepayState) (req : RepayReq)
    (h : ¬ st.loan.status = LoanStatus.COMPLETED)
    (hl : req.isLate = true)
    (hpos : 0 < req.overdueWeeks)
    (hne : (req.overdueWeeks : ℤ) ≠ missedWeeksOf st.loan req.paymentDate) :
    (repayLoan st req).1.loan.latePaymentPenalty
      = st.loan.latePaymentPenalty
        + st.loan.remaining * (1/2) * (req.overdueWeeks : ℚ) / 100
    ∧ (repayTxnOf st.loan req).penalty
      = st.loan.remaining * (1/2) * (req.overdueWeeks : ℚ) / 100 := by
  have hlp : latePenaltyOf st.loan req
      = st.loan.remaining * (1/2) * (req.overdueWeeks : ℚ) / 100 := by
    rw [latePenaltyOf, if_pos ⟨by rw [hl], hpos, hne⟩]
  constructor
  · rw [repayLoan_loan st req h]
    show st.loan.latePaymentPenalty + latePenaltyOf st.loan req = _
    rw [hlp]
  · show latePenaltyOf st.loan req = _
    rw [hlp]

/-- C5 (witness): the override at the sample loan with `isLate = true`,
`overdueWeeks = 2`, computed `missedWeeks = 0`. -/
theorem overdue_override_replaces_witness :
    (repayLoan c5State c5wReq).1.loan.latePaymentPenalty
      = c5State.loan.latePaymentPenalty
        + c5State.loan.remaining * (1/2) * (c5wReq.overdueWeeks : ℚ) / 100
    ∧ (repayTxnOf c5State.loan c5wReq).penalty
      = c5State.loan.remaining * (1/2) * (c5wReq.overdueWeeks : ℚ) / 100 :=
  overdue_override_replaces c5State c5wReq (by decide) rfl (by decide) (by decide)

/-! ### C4 — the fund-allocation invariant -/

/-- C4: after the GroupFund update performed by the interest-bearing
repayment (allocator-based recomputation) and by the ROSCA weekly repayment
(coupled increments), `totalFunds = investmentPool + interestPool −
emergencyReserve − insuranceFund − adminFee` holds exactly, assuming it held
before the update. -/
theorem fund_invariant_after_repayment (st : RepayState) (req : RepayReq)
    (cycle : Cycle) (gf : GroupFund)
    (h : ¬ st.loan.status = LoanStatus.COMPLETED)
    (hc : st.cycle = some cycle) (hgf : cycle.groupFund = some gf)
    (hinv : gf.totalFunds = gf.investmentPool + gf.interestPool
      - gf.emergencyReserve - gf.insuranceFund - gf.adminFee)
    (str : RepayStateROSCA) (d : ℤ) (gfr : GroupFund)
    (hr : ¬ str.loan.status = LoanStatus.COMPLETED)
    (hgr : str.groupExists = true)
    (hgfr : str.groupFund = some gfr)
    (hinvr : gfr.totalFunds = gfr.investmentPool + gfr.interestPool
      - gfr.emergencyReserve - gfr.insuranceFund - gfr.adminFee) :
    (∀ gf', (repayLoan st req).1.cycle.bind Cycle.groupFund = some gf' →
      gf'.totalFunds = gf'.investmentPool + gf'.interestPool
        - gf'.emergencyReserve - gf'.insuranceFund - gf'.adminFee)
    ∧ (∀ gf', (repayROSCAWeekly str d).1.groupFund = some gf' →
      gf'.totalFunds = gf'.investmentPool + gf'.interestPool
        - gf'.emergencyReserve - gf'.insuranceFund - gf'.adminFee) := by
  constructor
  · intro gf' hgf'
    rw [repayLoan_fund st req h cycle gf hc hgf] at hgf'
    obtain rfl := Option.some.inj hgf'
    rfl
  · intro gf' hgf'
    rw [repayROSCAWeekly_fund str d gfr hr hgr hgfr] at hgf'
    obtain rfl := Option.some.inj hgf'
    show gfr.totalFunds + (weeklyPrincipalOf str.loan + weeklyInterestOf str.loan)
      = gfr.investmentPool + weeklyPrincipalOf str.loan
        + (gfr.interestPool + weeklyInterestOf str.loan)
        - gfr.emergencyReserve - gfr.insuranceFund - gfr.adminFee
    linarith [hinvr]

/-- C4 (witness): both fund updates at a concrete fund satisfying the
invariant (`416 = 400 + 20 − 2 − 1 − 1`). -/
theorem fund_invariant_after_repayment_witness :
    (∀ gf', (repayLoan c4State c4Req).1.cycle.bind Cycle.groupFund = some gf' →
      gf'.totalFunds = gf'.investmentPool + gf'.interestPool
        - gf'.emergencyReserve - gf'.insuranceFund - gf'.adminFee)
    ∧ (∀ gf', (repayROSCAWeekly c4StateR 0).1.groupFund = some gf' →
      gf'.totalFunds = gf'.investmentPool + gf'.interestPool
        - gf'.emergencyReserve - gf'.insuranceFund - gf'.adminFee) :=
  fund_invariant_after_repayment c4State c4Req c4Cycle c4Fund (by decide)
    rfl rfl (by norm_num [c4Fund]) c4StateR 0 c4Fund (by decide) rfl rfl
    (by norm_num [c4Fund])

/-! ### C9 — the fixed principal increment is never clamped -/

/-- C9: in both repayment variants every accepted repayment adds exactly
`principal / weeks` to `totalPrincipalPaid` and logs a transaction with that
principal amount, regardless of the remaining balance (only the balance is
clamped at 0); consequently — witnessed by the concrete loan `c9Loan` with
remaining ₹4 < ₹10 weekly principal — a completing payment can push
`totalPrincipalPaid` (106) and the transaction-log principal total (106)
beyond the loan's principal (100). -/
theorem principal_increment_unclamped (st : RepayState) (req : RepayReq)
    (st2 : RepayStateNI) (req2 : RepayReqNI)
    (h : ¬ st.loan.status = LoanStatus.COMPLETED)
    (h2 : ¬ st2.loan.status = LoanStatus.COMPLETED) :
    ((repayLoan st req).1.loan.totalPrincipalPaid
        = st.loan.totalPrincipalPaid + st.loan.principal / (st.loan.weeks : ℚ)
      ∧ ((repayLoan st req).1.transactions.map (fun t => t.amount)).sum
        = (st.transactions.map (fun t => t.amount)).sum
          + st.loan.principal / (st.loan.weeks : ℚ))
    ∧ ((repayLoanNoInterest st2 req2).1.loan.totalPrincipalPaid
        = st2.loan.totalPrincipalPaid + st2.loan.principal / (st2.loan.weeks : ℚ)
      ∧ ((repayLoanNoInterest st2 req2).1.transactions.map (fun t => t.amount)).sum
        = (st2.transactions.map (fun t => t.amount)).sum
          + st2.loan.principal / (st2.loan.weeks : ℚ))
    ∧ (c9State.loan.remaining < c9State.loan.principal / (c9State.loan.weeks : ℚ)
      ∧ (repayLoanNoInterest c9State c9Req).1.loan.status = LoanStatus.COMPLETED
      ∧ (repayLoanNoInterest c9State c9Req).1.loan.totalPrincipalPaid = 106
      ∧ c9State.loan.principal = 100
      ∧ ((repayLoanNoInterest c9State c9Req).1.transactions.map
          (fun t => t.amount)).sum = 106
      ∧ (100 : ℚ) < 106) := by
  have hnr : newRemainingOf c9State.loan = 0 := by
    rw [newRemainingOf, jsMaxQ]
    norm_num [c9State, c9Loan, weeklyPrincipalOf]
  refine ⟨⟨?_, ?_⟩, ⟨?_, ?_⟩, ?_, ?_, ?_, rfl, ?_, by norm_num⟩
  · rw [repayLoan_loan st req h]
    rfl
  · rw [repayLoan_txns st req h]
    simp [repayTxnOf, weeklyPrincipalOf]
  · rw [repayLoanNoInterest_loan st2 req2 h2]
    rfl
  · rw [repayLoanNoInterest_txns st2 req2 h2]
    simp [repayNITxnOf, weeklyPrincipalOf]
  · show (4 : ℚ) < 100 / ((10 : ℕ) : ℚ)
    norm_num
  · rw [repayLoanNoInterest_loan c9State c9Req (by decide), repayNIUpdatedLoan]
    dsimp only
    rw [if_pos (le_of_eq hnr)]
  · rw [repayLoanNoInterest_loan c9State c9Req (by decide), repayNIUpdatedLoan]
    dsimp only
    norm_num [weeklyPrincipalOf, c9State, c9Loan]
  · rw [repayLoanNoInterest_txns c9State c9Req (by decide)]
    simp [c9State, c9Txn, repayNITxnOf, weeklyPrincipalOf, c9Loan]
    norm_num

/-- C9 (witness): the per-call increments at the sample active states. -/
theorem principal_increment_unclamped_witness :
    ((repayLoan c1State c1Req).1.loan.totalPrincipalPaid
        = c1State.loan.totalPrincipalPaid
          + c1State.loan.principal / (c1State.loan.weeks : ℚ)
      ∧ ((repayLoan c1State c1Req).1.transactions.map (fun t => t.amount)).sum
        = (c1State.transactions.map (fun t => t.amount)).sum
          + c1State.loan.principal / (c1State.loan.weeks : ℚ))
    ∧ ((repayLoanNoInterest c9State c9Req).1.loan.totalPrincipalPaid
        = c9State.loan.totalPrincipalPaid
          + c9State.loan.principal / (c9State.loan.weeks : ℚ)
      ∧ ((repayLoanNoInterest c9State c9Req).1.transactions.map
          (fun t => t.amount)).sum
        = (c9State.transactions.map (fun t => t.amount)).sum
          + c9State.loan.principal / (c9State.loan.weeks : ℚ))
    ∧ (c9State.loan.remaining < c9State.loan.principal / (c9State.loan.weeks : ℚ)
      ∧ (repayLoanNoInterest c9State c9Req).1.loan.status = LoanStatus.COMPLETED
      ∧ (repayLoanNoInterest c9State c9Req).1.loan.totalPrincipalPaid = 106
      ∧ c9State.loan.principal = 100
      ∧ ((repayLoanNoInterest c9State c9Req).1.transactions.map
          (fun t => t.amount)).sum = 106
      ∧ (100 : ℚ) < 106) :=
  principal_increment_unclamped c1State c1Req c9State c9Req (by decide) (by decide)

/-! ### C6 — proportional interest distribution on completion -/

/-- C6: when an interest-bearing repayment transitions the loan to COMPLETED
(with the cycle's fund and active member list present), each active member's
`totalInterestReceived` grows by
`totalInterest × (totalContributed / Σ totalContributed)` — and when the
members' contributions sum to zero, no distribution record is created and no
division error occurs.  (`hti`: the loan's accumulated interest is
nonnegative; when it is zero the code creates no records and every member's
share is `totalInterest × fraction = 0` as claimed.) -/
theorem interest_distribution_on_completion (st : RepayState) (req : RepayReq)
    (cycle : Cycle) (gf : GroupFund) (ms : List GroupMember)
    (h : ¬ st.loan.status = LoanStatus.COMPLETED)
    (hc : st.cycle = some cycle) (hgf : cycle.groupFund = some gf)
    (hms : cycle.groupMembers = some ms)
    (hcomp : (repayLoan st req).1.loan.status = LoanStatus.COMPLETED)
    (hti : 0 ≤ (repayUpdatedLoan st.loan req).totalInterest) :
    (0 < (ms.map (fun gm => gm.totalContributed)).sum →
      ((repayLoan st req).1.cycle.bind Cycle.groupMembers
          = some (ms.map (fun gm =>
              { gm with totalInterestReceived := gm.totalInterestReceived
                  + (repayUpdatedLoan st.loan req).totalInterest
                    * (gm.totalContributed
                      / (ms.map (fun gm => gm.totalContributed)).sum) }))
        ∧ (0 < (repayUpdatedLoan st.loan req).totalInterest →
            (repayLoan st req).1.distributions
              = st.distributions ++ ms.map (fun gm =>
                  { groupMemberId := gm.id
                    amount := (repayUpdatedLoan st.loan req).totalInterest
                      * (gm.totalContributed
                        / (ms.map (fun gm => gm.totalContributed)).sum) }))))
    ∧ ((ms.map (fun gm => gm.totalContributed)).sum = 0 →
        (repayLoan st req).1.distributions = st.distributions) := by
  have hcomp' : (repayUpdatedLoan st.loan req).status = LoanStatus.COMPLETED := by
    rw [repayLoan_loan st req h] at hcomp
    exact hcomp
  obtain ⟨hmem, hdist⟩ :=
    repayLoan_distribution st req h cycle gf ms hc hgf hms hcomp'
  constructor
  · intro htc
    constructor
    · rw [hmem]
      simp only [distributeInterest]
      rcases lt_or_eq_of_le hti with hti' | hti'
      · rw [if_pos ⟨htc, hti'⟩]
      · rw [if_neg (by rw [← hti']; simp)]
        rw [← hti']
        congr 1
        have hid : ∀ gm ∈ ms,
            ({ gm with totalInterestReceived := gm.totalInterestReceived
                + 0 * (gm.totalContributed
                  / (ms.map (fun gm => gm.totalContributed)).sum) } : GroupMember)
              = gm := by
          intro gm _
          simp
        rw [List.map_congr_left hid, List.map_id']
    · intro hti'
      rw [hdist]
      simp only [distributeInterest]
      rw [if_pos ⟨htc, hti'⟩]
  · intro htc0
    rw [hdist]
    simp only [distributeInterest]
    rw [if_neg (by simp [htc0]), List.append_nil]

/-- C6 (witness): the distribution at the sample completing repayment
(`totalInterest = 1`, contributions 3 and 1). -/
theorem interest_distribution_on_completion_witness :
    (0 < (c6Members.map (fun gm => gm.totalContributed)).sum →
      ((repayLoan c6State c6Req).1.cycle.bind Cycle.groupMembers
          = some (c6Members.map (fun gm =>
              { gm with totalInterestReceived := gm.totalInterestReceived
                  + (repayUpdatedLoan c6State.loan c6Req).totalInterest
                    * (gm.totalContributed
                      / (c6Members.map (fun gm => gm.totalContributed)).sum) }))
        ∧ (0 < (repayUpdatedLoan c6State.loan c6Req).totalInterest →
            (repayLoan c6State c6Req).1.distributions
              = c6State.distributions ++ c6Members.map (fun gm =>
                  { groupMemberId := gm.id
                    amount := (repayUpdatedLoan c6State.loan c6Req).totalInterest
                      * (gm.totalContributed
                        / (c6Members.map (fun gm => gm.totalContributed)).sum) }))))
    ∧ ((c6Members.map (fun gm => gm.totalContributed)).sum = 0 →
        (repayLoan c6State c6Req).1.distributions = c6State.distributions) := by
  have hnr : newRemainingOf c6State.loan = 0 := by
    rw [newRemainingOf, jsMaxQ]
    norm_num [c6State, c6Loan, weeklyPrincipalOf]
  have hcomp : (repayLoan c6State c6Req).1.loan.status = LoanStatus.COMPLETED := by
    rw [repayLoan_loan c6State c6Req (by decide), repayUpdatedLoan]
    dsimp only
    rw [if_pos (le_of_eq hnr)]
  have hmw : (missedWeeksOf c6State.loan c6Req.paymentDate).toNat = 0 := by
    decide
  have hti : 0 ≤ (repayUpdatedLoan c6State.loan c6Req).totalInterest := by
    rw [repayUpdatedLoan]
    dsimp only
    rw [paymentInterestOf, accumulatedOf, hmw, missedSim]
    norm_num [weeklyInterestOf, c6State, c6Loan]
  exact interest_distribution_on_completion c6State c6Req c6Cycle zeroFund
    c6Members (by decide) rfl rfl rfl hcomp hti

/-! ### C8 / C10 — the mid-cycle benefit estimate -/

theorem weeklyOr100_some (a : ℚ) (ha : a ≠ 0) : weeklyOr100 (some a) = a := by
  simp [weeklyOr100, ha]

/-- C8: with every member carrying a declared (non-null, nonzero) weekly
amount, the benefit estimate computes the member's contribution as
`max(0, week − joiningWeek + 1) × weeklyAmount`; when the active members'
total contributions are positive the returned benefit is
`memberContribution / totalContributions × pool` with the pool the sum of
weekly amounts of active members having `joiningWeek ≤ week`; otherwise it is
the pool split equally over the members active that week. -/
theorem benefit_estimate_formula (group : List GroupMember)
    (target : GroupMember) (week : ℤ) (wa : ℚ)
    (hwa : target.weeklyAmount = some wa) (hwa0 : wa ≠ 0)
    (hgrp : ∀ gm ∈ group, ∃ a, gm.weeklyAmount = some a ∧ a ≠ 0) :
    (calculateBenefit group target week).1.totalContributed
      = ((weeksContributed week target : ℤ) : ℚ) * wa
    ∧ (0 < ((group.filter (fun gm => gm.isActive)).map
          (fun gm => ((weeksContributed week gm : ℤ) : ℚ)
            * gm.weeklyAmount.getD 0)).sum →
        (calculateBenefit group target week).2
          = ((weeksContributed week target : ℤ) : ℚ) * wa
            / ((group.filter (fun gm => gm.isActive)).map
                (fun gm => ((weeksContributed week gm : ℤ) : ℚ)
                  * gm.weeklyAmount.getD 0)).sum
            * (((group.filter (fun gm => gm.isActive)).filter
                (fun gm => gm.joiningWeek ≤ week)).map
                (fun gm => gm.weeklyAmount.getD 0)).sum)
    ∧ (((group.filter (fun gm => gm.isActive)).map
          (fun gm => ((weeksContributed week gm : ℤ) : ℚ)
            * gm.weeklyAmount.getD 0)).sum ≤ 0 →
        1 ≤ ((group.filter (fun gm => gm.isActive)).filter
            (fun gm => gm.joiningWeek ≤ week)).length →
        (calculateBenefit group target week).2
          = (((group.filter (fun gm => gm.isActive)).filter
              (fun gm => gm.joiningWeek ≤ week)).map
              (fun gm => gm.weeklyAmount.getD 0)).sum
            / ((((group.filter (fun gm => gm.isActive)).filter
                (fun gm => gm.joiningWeek ≤ week)).length : ℕ) : ℚ)) := by
  have heff : ∀ gm ∈ group.filter (fun gm => gm.isActive),
      weeklyOr100 gm.weeklyAmount = gm.weeklyAmount.getD 0 := by
    intro gm hgm
    obtain ⟨a, ha, ha0⟩ := hgrp gm (List.mem_of_mem_filter hgm)
    rw [ha, weeklyOr100_some a ha0]
    rfl
  have htc : ((group.filter (fun gm => gm.isActive)).map
        (fun gm => ((weeksContributed week gm : ℤ) : ℚ)
          * weeklyOr100 gm.weeklyAmount)).sum
      = ((group.filter (fun gm => gm.isActive)).map
        (fun gm => ((weeksContributed week gm : ℤ) : ℚ)
          * gm.weeklyAmount.getD 0)).sum := by
    exact congrArg List.sum
      (List.map_congr_left (fun gm hgm => by rw [heff gm hgm]))
  have hpool : (((group.filter (fun gm => gm.isActive)).filter
        (fun gm => gm.joiningWeek ≤ week)).map
        (fun gm => weeklyOr100 gm.weeklyAmount)).sum
      = (((group.filter (fun gm => gm.isActive)).filter
        (fun gm => gm.joiningWeek ≤ week)).map
        (fun gm => gm.weeklyAmount.getD 0)).sum := by
    exact congrArg List.sum
      (List.map_congr_left (fun gm hgm =>
        heff gm (List.mem_of_mem_filter hgm)))
  have hmc : ((weeksContributed week target : ℤ) : ℚ)
        * weeklyOr100 target.weeklyAmount
      = ((weeksContributed week target : ℤ) : ℚ) * wa := by
    rw [hwa, weeklyOr100_some wa hwa0]
  refine ⟨?_, ?_, ?_⟩
  · show ((weeksContributed week target : ℤ) : ℚ)
      * weeklyOr100 target.weeklyAmount = _
    exact hmc
  · intro hpos
    show (if 0 < ((group.filter (fun gm => gm.isActive)).map
          (fun gm => ((weeksContributed week gm : ℤ) : ℚ)
            * weeklyOr100 gm.weeklyAmount)).sum then _ else _) = _
    rw [if_pos (by rw [htc]; exact hpos), htc, hpool, hmc]
  · intro hnonpos hcount
    show (if 0 < ((group.filter (fun gm => gm.isActive)).map
          (fun gm => ((weeksContributed week gm : ℤ) : ℚ)
            * weeklyOr100 gm.weeklyAmount)).sum then _ else _) = _
    rw [if_neg (by rw [htc]; exact not_lt.mpr hnonpos), hpool]
    congr 1
    rw [jsMaxN_eq_max]
    exact_mod_cast congrArg (fun n : ℕ => ((n : ℕ) : ℚ)) (max_eq_left hcount)

/-- C8 (witness): the estimate at a three-member group (one inactive), week
4: contributions `4×100` and `2×50`, pool `150`, benefit
`400/500 × 150`. -/
theorem benefit_estimate_formula_witness :
    (calculateBenefit c8group c8target 4).1.totalContributed
      = ((weeksContributed 4 c8target : ℤ) : ℚ) * 100
    ∧ (0 < ((c8group.filter (fun gm => gm.isActive)).map
          (fun gm => ((weeksContributed 4 gm : ℤ) : ℚ)
            * gm.weeklyAmount.getD 0)).sum →
        (calculateBenefit c8group c8target 4).2
          = ((weeksContributed 4 c8target : ℤ) : ℚ) * 100
            / ((c8group.filter (fun gm => gm.isActive)).map
                (fun gm => ((weeksContributed 4 gm : ℤ) : ℚ)
                  * gm.weeklyAmount.getD 0)).sum
            * (((c8group.filter (fun gm => gm.isActive)).filter
                (fun gm => gm.joiningWeek ≤ 4)).map
                (fun gm => gm.weeklyAmount.getD 0)).sum)
    ∧ (((c8group.filter (fun gm => gm.isActive)).map
          (fun gm => ((weeksContributed 4 gm : ℤ) : ℚ)
            * gm.weeklyAmount.getD 0)).sum ≤ 0 →
        1 ≤ ((c8group.filter (fun gm => gm.isActive)).filter
            (fun gm => gm.joiningWeek ≤ 4)).length →
        (calculateBenefit c8group c8target 4).2
          = (((c8group.filter (fun gm => gm.isActive)).filter
              (fun gm => gm.joiningWeek ≤ 4)).map
              (fun gm => gm.weeklyAmount.getD 0)).sum
            / ((((c8group.filter (fun gm => gm.isActive)).filter
                (fun gm => gm.joiningWeek ≤ 4)).length : ℕ) : ℚ)) :=
  benefit_estimate_formula c8group c8target 4 100 rfl (by norm_num)
    (by
      intro gm hgm
      simp only [c8group, List.mem_cons, List.not_mem_nil, or_false] at hgm
      rcases hgm with rfl | rfl | rfl
      · exact ⟨100, rfl, by norm_num⟩
      · exact ⟨50, rfl, by norm_num⟩
      · exact ⟨100, rfl, by norm_num⟩)

/-- C10: every invocation of the benefit estimator overwrites the target
GroupMember's `totalContributed` with the derived
`max(0, week − joiningWeek + 1) × weeklyAmount` — the result is the same for
any previously stored value, i.e. the field is replaced, not incremented —
and caches the computed `benefitAmount` on the same record. -/
theorem benefit_overwrites_contribution (group : List GroupMember)
    (target : GroupMember) (week : ℤ) (v : ℚ) (wa : ℚ)
    (hwa : target.weeklyAmount = some wa) (hwa0 : wa ≠ 0) :
    (calculateBenefit group target week).1.totalContributed
      = ((weeksContributed week target : ℤ) : ℚ) * wa
    ∧ (calculateBenefit group { target with totalContributed := v }
        week).1.totalContributed
      = (calculateBenefit group target week).1.totalContributed
    ∧ (calculateBenefit group target week).1.benefitAmount
      = (calculateBenefit group target week).2 := by
  refine ⟨?_, rfl, rfl⟩
  show ((weeksContributed week target : ℤ) : ℚ)
    * weeklyOr100 target.weeklyAmount = _
  rw [hwa, weeklyOr100_some wa hwa0]

/-- C10 (witness): overwriting at the sample group — a stored
`totalContributed` of 999 is replaced by the derived value. -/
theorem benefit_overwrites_contribution_witness :
    (calculateBenefit c8group c8target 4).1.totalContributed
      = ((weeksContributed 4 c8target : ℤ) : ℚ) * 100
    ∧ (calculateBenefit c8group { c8target with totalContributed := 999 }
        4).1.totalContributed
      = (calculateBenefit c8group c8target 4).1.totalContributed
    ∧ (calculateBenefit c8group c8target 4).1.benefitAmount
      = (calculateBenefit c8group c8target 4).2 :=
  benefit_overwrites_contribution c8group c8target 4 999 100 rfl (by norm_num)

end Kulu
